import Mathlib

/-!
Verification of the Luigi task pipeline in `pipelines/Luigi-Tasks.ipynb`
(pydata_berlin_2018).

The notebook declares seven Luigi task classes: `DownloadDataset`,
`ExtractDataset`, `Configure`, `BaselineValidation`, `TrainModel`,
`Evaluate` and `Export`, each with `requires`, `output` and `run`
(or `program_args`) methods.  We embed the task classes as an inductive
type carrying their declared parameters, the `requires`/`output`/
`program_args` methods as pure functions translated from the notebook
cells, and the `run` methods of `BaselineValidation`, `Evaluate` and
`Export` as functions over an explicit filesystem state, with the
opaque payload collaborators (Keras model loading/evaluation, generator
construction, baseline computation, TensorFlow export) abstracted into
an `Externals` record.  Python floats are modelled as rationals and the
concrete accuracies of the spec scenarios are exact decimals.
-/

namespace LuigiPipeline

/-- A Luigi parameter value: `IntParameter` or `Parameter` (string). -/
inductive ParamVal where
  | int (i : Int)
  | str (s : String)
deriving DecidableEq, Repr

/-- The task classes of the notebook, each carrying its declared Luigi
parameters in declaration order (`dataset_version : IntParameter`,
`dataset_name : Parameter`, `config_name : Parameter`,
`model_version : IntParameter`, `model_name : Parameter`). -/
inductive TaskT where
  | DownloadDataset (dataset_version : Int) (dataset_name : String)
  | ExtractDataset (dataset_version : Int) (dataset_name : String)
  | Configure (config_name : String)
  | BaselineValidation (dataset_version : Int) (dataset_name : String)
      (config_name : String)
  | TrainModel (dataset_version : Int) (dataset_name : String)
      (config_name : String) (model_version : Int) (model_name : String)
  | Evaluate (dataset_version : Int) (dataset_name : String)
      (config_name : String) (model_version : Int) (model_name : String)
  | Export (dataset_version : Int) (dataset_name : String)
      (config_name : String) (model_version : Int) (model_name : String)
deriving DecidableEq, Repr

/-- The task-type component of a TaskKey: the Python class name. -/
def taskType : TaskT → String
  | .DownloadDataset .. => "DownloadDataset"
  | .ExtractDataset .. => "ExtractDataset"
  | .Configure .. => "Configure"
  | .BaselineValidation .. => "BaselineValidation"
  | .TrainModel .. => "TrainModel"
  | .Evaluate .. => "Evaluate"
  | .Export .. => "Export"

/-- The ordered parameter values of a task, as Luigi uses them for task
identity (class plus ordered parameter tuple). -/
def params : TaskT → List ParamVal
  | .DownloadDataset v n => [.int v, .str n]
  | .ExtractDataset v n => [.int v, .str n]
  | .Configure c => [.str c]
  | .BaselineValidation v n c => [.int v, .str n, .str c]
  | .TrainModel v n c mv mn => [.int v, .str n, .str c, .int mv, .str mn]
  | .Evaluate v n c mv mn => [.int v, .str n, .str c, .int mv, .str mn]
  | .Export v n c mv mn => [.int v, .str n, .str c, .int mv, .str mn]

/-- TaskKey: canonical identity of a task, its type together with its
ordered parameter values. -/
def taskKey (t : TaskT) : String × List ParamVal := (taskType t, params t)

/-- `DownloadDataset.base_url` class attribute. -/
def DownloadDataset.base_url : String := "http://plainpixels.work/resources/datasets"

/-- `DownloadDataset.file_fomat` class attribute (typo as in the source). -/
def DownloadDataset.file_fomat : String := "zip"

/-- `BaselineValidation.baseline_name` class attribute. -/
def BaselineValidation.baseline_name : String := "find_round_objects.json"

/-- `BaselineValidation.validation_set` class attribute. -/
def BaselineValidation.validation_set : String := "Test"

/-- `Evaluate.validation_set` class attribute. -/
def Evaluate.validation_set : String := "Test"

/-- The `requires` methods of the seven classes, in the order the
dependencies are yielded in the notebook. -/
def requires : TaskT → List TaskT
  | .DownloadDataset _ _ => []
  | .ExtractDataset v n => [.DownloadDataset v n]
  | .Configure _ => []
  | .BaselineValidation v n c => [.ExtractDataset v n, .Configure c]
  | .TrainModel v n c _ _ => [.ExtractDataset v n, .Configure c]
  | .Evaluate v n c mv mn =>
      [.TrainModel v n c mv mn, .BaselineValidation v n c,
       .ExtractDataset v n, .Configure c]
  | .Export v n c mv mn =>
      [.Evaluate v n c mv mn, .TrainModel v n c mv mn]

/-- The `output` methods: the `LocalTarget` path each class declares,
translated from the `%`-format strings of the notebook. -/
def output : TaskT → String
  | .DownloadDataset v n =>
      "/tmp/" ++ n ++ "_v" ++ toString v ++ "." ++ DownloadDataset.file_fomat
  | .ExtractDataset v _ => "datasets/fruit-images-dataset/" ++ toString v
  | .Configure c => "configurations/" ++ c ++ ".pickle"
  | .BaselineValidation _ _ _ =>
      "baseline/" ++ BaselineValidation.baseline_name ++ ".json"
  | .TrainModel _ _ _ mv mn => "model/" ++ toString mv ++ "/" ++ mn ++ ".h5"
  | .Evaluate _ _ _ mv mn =>
      "evaluation/" ++ toString mv ++ "/" ++ mn ++ ".json"
  | .Export _ _ _ mv mn => "serving/" ++ mn ++ "/" ++ toString mv

/-- `self.input()`: the paths of the targets of the required tasks, in
declaration order. -/
def inputs (t : TaskT) : List String := (requires t).map output

/-- `DownloadDataset.program_args`: the argument vector handed to the
external process (`curl`), with the destination taken from the task's
own `output()` and the URL built from the class attributes. -/
def DownloadDataset.program_args (dataset_version : Int) (dataset_name : String) :
    List String :=
  ["curl", "-L",
   "-o", output (.DownloadDataset dataset_version dataset_name),
   DownloadDataset.base_url ++ "/" ++ dataset_name ++ "_v" ++
     toString dataset_version ++ "." ++ DownloadDataset.file_fomat]

/-- File contents tracked by the model filesystem: either a parsed JSON
object of numeric fields (what `json.dump`/`json.load` exchange here) or
an opaque byte artifact (zip archives, pickled generators, `.h5` models,
SavedModel directories). -/
inductive Content where
  | json (fields : List (String × ℚ))
  | bytes (blob : List Nat)
deriving DecidableEq, Repr

/-- The filesystem as an association list from paths to contents; the
most recent write shadows older entries. -/
abbrev FS := List (String × Content)

/-- Read the content at a path, `none` when the file does not exist. -/
def fsRead (fs : FS) (p : String) : Option Content :=
  (fs.find? (fun e => e.1 == p)).map (fun e => e.2)

/-- Write content at a path. -/
def fsWrite (fs : FS) (p : String) (c : Content) : FS := (p, c) :: fs

/-- Python `d[k]` on a JSON object, as an optional lookup; `none`
corresponds to a Python `KeyError`. -/
def lookupKey (fields : List (String × ℚ)) (k : String) : Option ℚ :=
  (fields.find? (fun e => e.1 == k)).map (fun e => e.2)

/-- The error kinds a work routine of this pipeline can signal.
`gateFailure` is the threshold-gate exception raised by `Evaluate.run`
(`raise Exception("Acc %f is smaller than baseline acc %f!")`), carrying
the two compared values; `keyError` is a Python `KeyError` from an
unguarded dictionary lookup; `ioError` a missing input file; and
`decodeError` a file whose content is not a JSON object. -/
inductive PipeErr where
  | ioError (path : String)
  | decodeError (path : String)
  | keyError (key : String)
  | gateFailure (acc baseline_acc : ℚ)
deriving DecidableEq, Repr

/-- The opaque payload collaborators invoked by the work routines,
abstracted over an arbitrary type `G` of generator handles:
`build_generator` (helper.keras_util), the numeric accuracy produced by
`calc_baseline_acc` (helper.cv2_util), the value `evaluation[1]`
produced by `keras.models.load_model` plus `model.evaluate_generator`,
and the SavedModel artifact written by the TensorFlow export code. -/
structure Externals (G : Type) where
  build_generator : String → String → String → G
  baseline_acc_value : G → String → String → ℚ
  evaluate_acc : Content → G → ℚ
  export_artifact : Content → Content

/-- Modelled from the spec: `calc_baseline_acc` lives in
`helper.cv2_util`, which is not part of this repository's sources; per
the spec ("a JSON-File containing the baseline accuracy", read back by
`Evaluate` under the key `"acc"`), its result is a JSON object binding
`"acc"` to an opaque accuracy value. -/
def calc_baseline_acc {G : Type} (ext : Externals G) (test_data : G)
    (dataset : String) (validation_set : String) : List (String × ℚ) :=
  [("acc", ext.baseline_acc_value test_data dataset validation_set)]

/-- The JSON object `BaselineValidation.run` serializes: the result of
`calc_baseline_acc(test_data, dataset, self.validation_set)` where
`test_data = build_generator(config, dataset, self.validation_set)`,
`dataset = self.input()[0].path` and `config = self.input()[1].path`. -/
def BaselineValidation.result {G : Type} (ext : Externals G) (v : Int)
    (n c : String) : List (String × ℚ) :=
  calc_baseline_acc ext
    (ext.build_generator ((inputs (.BaselineValidation v n c)).getD 1 "")
      ((inputs (.BaselineValidation v n c)).getD 0 "")
      BaselineValidation.validation_set)
    ((inputs (.BaselineValidation v n c)).getD 0 "")
    BaselineValidation.validation_set

/-- `BaselineValidation.run`: computes the baseline result and dumps it
as JSON into the task's own target. -/
def BaselineValidation.run {G : Type} (ext : Externals G) (v : Int)
    (n c : String) (fs : FS) : Except PipeErr FS :=
  .ok (fsWrite fs (output (.BaselineValidation v n c))
    (.json (BaselineValidation.result ext v n c)))

/-- The accuracy `acc = evaluation[1]` computed by `Evaluate.run` from
the loaded model and the generator built over
`config = self.input()[3].path`, `dataset = self.input()[2].path` and
`self.validation_set`. -/
def Evaluate.computed_acc {G : Type} (ext : Externals G) (v : Int)
    (n c : String) (mv : Int) (mn : String) (model : Content) : ℚ :=
  ext.evaluate_acc model
    (ext.build_generator ((inputs (.Evaluate v n c mv mn)).getD 3 "")
      ((inputs (.Evaluate v n c mv mn)).getD 2 "")
      Evaluate.validation_set)

/-- `Evaluate.run`: loads the model from `self.input()[0].path`,
computes the accuracy, reads the baseline JSON from
`self.input()[1]` and looks up its `"acc"` key unguarded, then either
writes `{"acc": acc, "baseline_acc": baseline_acc}` to its own target
(when `acc > baseline_acc`) or raises the gate exception carrying both
values.  A missing model or baseline file surfaces as `ioError`, a
non-JSON baseline file as `decodeError`, and a baseline object without
the `"acc"` key as the Python `KeyError`. -/
def Evaluate.run {G : Type} (ext : Externals G) (v : Int) (n c : String)
    (mv : Int) (mn : String) (fs : FS) : Except PipeErr FS :=
  match fsRead fs ((inputs (.Evaluate v n c mv mn)).getD 0 "") with
  | none => .error (.ioError ((inputs (.Evaluate v n c mv mn)).getD 0 ""))
  | some model =>
    let acc := Evaluate.computed_acc ext v n c mv mn model
    match fsRead fs ((inputs (.Evaluate v n c mv mn)).getD 1 "") with
    | none => .error (.ioError ((inputs (.Evaluate v n c mv mn)).getD 1 ""))
    | some (.bytes _) =>
        .error (.decodeError ((inputs (.Evaluate v n c mv mn)).getD 1 ""))
    | some (.json fields) =>
      match lookupKey fields "acc" with
      | none => .error (.keyError "acc")
      | some baseline_acc =>
        if acc > baseline_acc then
          .ok (fsWrite fs (output (.Evaluate v n c mv mn))
            (.json [("acc", acc), ("baseline_acc", baseline_acc)]))
        else
          .error (.gateFailure acc baseline_acc)

/-- `Export.run`: loads the model from `model_path =
self.input()[1].path` (the `TrainModel` target) and writes the
TensorFlow SavedModel artifact to its own target; the baseline or
evaluation JSON files are never opened. -/
def Export.run {G : Type} (ext : Externals G) (v : Int) (n c : String)
    (mv : Int) (mn : String) (fs : FS) : Except PipeErr FS :=
  match fsRead fs ((inputs (.Export v n c mv mn)).getD 1 "") with
  | none => .error (.ioError ((inputs (.Export v n c mv mn)).getD 1 ""))
  | some model =>
      .ok (fsWrite fs (output (.Export v n c mv mn))
        (ext.export_artifact model))

/-- The filesystem after a work routine's outcome: an uncaught exception
leaves the state as it was. -/
def runState (fs : FS) (r : Except PipeErr FS) : FS :=
  match r with
  | .ok fs2 => fs2
  | .error _ => fs

/-- The `output()` methods as state transformers over the filesystem:
each notebook `output` body only formats a string from the task's
parameters and constructs a `LocalTarget`, performing no filesystem
access, so the embedding returns the path and the unchanged state. -/
def outputM (t : TaskT) (fs : FS) : String × FS := (output t, fs)

/-- Modelled from the spec: the Scheduler is Luigi's, not part of this
repository's sources.  Per spec section 4.4 it resolves dependencies
depth-first, memoizes per-TaskKey completion within a run, and never
invokes the work routine of an already-complete node.  `complete` is the
set of TaskKeys recorded Complete in this run (here tasks themselves,
since TaskKeys are in bijection with tasks), and `trace` records, newest
first, every task whose work routine was invoked. -/
structure SchedState where
  complete : List TaskT
  trace : List TaskT
deriving DecidableEq, Repr

/-- Modelled from the spec: one fuel-bounded scheduler step for a fresh
run in which no Target pre-exists and no work routine fails (the
scenario of the diamond-dependency property): an already-complete task
is returned untouched, otherwise all dependencies are resolved first and
the task's work routine then runs exactly once, marking it complete. -/
def scheduleFuel : Nat → TaskT → SchedState → SchedState
  | 0, _, s => s
  | fuel+1, t, s =>
    if t ∈ s.complete then s
    else
      let s1 := (requires t).foldl (fun acc d => scheduleFuel fuel d acc) s
      if t ∈ s1.complete then s1
      else ⟨t :: s1.complete, t :: s1.trace⟩

/-- Height of a task in the dependency graph; every declared dependency
has strictly smaller rank, which is what makes the graph acyclic. -/
def rank : TaskT → Nat
  | .DownloadDataset .. => 0
  | .Configure .. => 0
  | .ExtractDataset .. => 1
  | .BaselineValidation .. => 2
  | .TrainModel .. => 2
  | .Evaluate .. => 3
  | .Export .. => 4

/-- The dependency edge relation: `depends d t` when `t` declares `d`
in its `requires`. -/
def depends (d t : TaskT) : Prop := d ∈ requires t

/-- Evaluation of a fresh scheduler run rooted at `Export`: every node
of the pipeline graph ends Complete and each work routine appears in the
trace exactly once. -/
theorem scheduleFuel_export_eval (v : Int) (n c : String) (mv : Int)
    (mn : String) :
    scheduleFuel 7 (.Export v n c mv mn) ⟨[], []⟩ =
      ⟨[.Export v n c mv mn, .Evaluate v n c mv mn,
        .BaselineValidation v n c, .TrainModel v n c mv mn, .Configure c,
        .ExtractDataset v n, .DownloadDataset v n],
       [.Export v n c mv mn, .Evaluate v n c mv mn,
        .BaselineValidation v n c, .TrainModel v n c mv mn, .Configure c,
        .ExtractDataset v n, .DownloadDataset v n]⟩ := by
  simp [scheduleFuel, requires]

/-- Equal TaskKeys identify equal tasks: the key determines the class
and all declared parameters. -/
theorem taskKey_injective {t1 t2 : TaskT} (h : taskKey t1 = taskKey t2) :
    t1 = t2 := by
  cases t1 <;> cases t2 <;> simp_all [taskKey, taskType, params]

/-- Every declared dependency sits strictly lower in the graph. -/
theorem requires_rank_lt {t d : TaskT} (h : d ∈ requires t) :
    rank d < rank t := by
  cases t <;> simp only [requires, List.mem_cons,
    List.not_mem_nil, or_false] at h
  case ExtractDataset => subst h; simp [rank]
  case BaselineValidation =>
    rcases h with rfl | rfl <;> simp [rank]
  case TrainModel =>
    rcases h with rfl | rfl <;> simp [rank]
  case Evaluate =>
    rcases h with rfl | rfl | rfl | rfl <;> simp [rank]
  case Export =>
    rcases h with rfl | rfl <;> simp [rank]

/-- Transitive dependents sit strictly higher in rank. -/
theorem transGen_rank_lt {a b : TaskT}
    (h : Relation.TransGen depends a b) : rank a < rank b := by
  induction h with
  | single h1 => exact requires_rank_lt h1
  | tail _ h1 ih => exact lt_trans ih (requires_rank_lt h1)

/-- Reading back a freshly written path yields the written content. -/
theorem fsRead_fsWrite_same (fs : FS) (p : String) (c : Content) :
    fsRead (fsWrite fs p c) p = some c := by
  simp [fsRead, fsWrite]

/-- Concrete externals for witness scenarios: generator handles are
`Unit` and the model evaluation accuracy is the given rational. -/
def extW (q : ℚ) : Externals Unit :=
  ⟨fun _ _ _ => (), fun _ _ _ => 0, fun _ _ => q, fun c2 => c2⟩

/-- A concrete filesystem holding a trained model artifact and a
baseline JSON file with accuracy 0.80, at the default parameters. -/
def fsW : FS :=
  [(output (.TrainModel 1 "dataset" "standard" 1 "keras_model"), .bytes []),
   (output (.BaselineValidation 1 "dataset" "standard"),
    .json [("acc", 4/5)])]

/-- C1: the Evaluate work routine signals the GateFailure if and only
if the computed accuracy does not strictly exceed the baseline read from
the BaselineValidation target; when it strictly exceeds, no failure is
signaled and the task completes by writing its target. -/
theorem evaluate_gate_iff {G : Type} (ext : Externals G) (v : Int)
    (n c : String) (mv : Int) (mn : String) (fs : FS) (model : Content)
    (fields : List (String × ℚ)) (baseline_acc : ℚ)
    (hm : fsRead fs (output (.TrainModel v n c mv mn)) = some model)
    (hb : fsRead fs (output (.BaselineValidation v n c)) =
      some (.json fields))
    (ha : lookupKey fields "acc" = some baseline_acc) :
    (Evaluate.run ext v n c mv mn fs =
        .error (.gateFailure (Evaluate.computed_acc ext v n c mv mn model)
          baseline_acc)
      ↔ ¬ baseline_acc < Evaluate.computed_acc ext v n c mv mn model) ∧
    (baseline_acc < Evaluate.computed_acc ext v n c mv mn model →
      Evaluate.run ext v n c mv mn fs =
        .ok (fsWrite fs (output (.Evaluate v n c mv mn))
          (.json [("acc", Evaluate.computed_acc ext v n c mv mn model),
                  ("baseline_acc", baseline_acc)]))) := by
  by_cases hlt : baseline_acc < Evaluate.computed_acc ext v n c mv mn model <;>
    constructor <;>
    simp [Evaluate.run, inputs, requires, hm, hb, ha, hlt, gt_iff_lt]

/-- C1 witness: at the default parameters with computed accuracy 0.90
and baseline 0.80 the gate equivalence holds concretely. -/
theorem evaluate_gate_iff_witness :
    Evaluate.run (extW (9/10)) 1 "dataset" "standard" 1 "keras_model" fsW =
        .error (.gateFailure (9/10) (4/5)) ↔ ¬ (4:ℚ)/5 < 9/10 :=
  (evaluate_gate_iff (extW (9/10)) 1 "dataset" "standard" 1 "keras_model"
    fsW (.bytes []) [("acc", 4/5)] (4/5) rfl rfl rfl).1

/-- C2: with computed accuracy 0.90 against baseline 0.80 the Evaluate
task completes and writes `{"acc": 0.90, "baseline_acc": 0.80}` to its
target. -/
theorem evaluate_pass_writes {G : Type} (ext : Externals G) (v : Int)
    (n c : String) (mv : Int) (mn : String) (fs : FS) (model : Content)
    (fields : List (String × ℚ))
    (hm : fsRead fs (output (.TrainModel v n c mv mn)) = some model)
    (hb : fsRead fs (output (.BaselineValidation v n c)) =
      some (.json fields))
    (ha : lookupKey fields "acc" = some (4/5))
    (hacc : Evaluate.computed_acc ext v n c mv mn model = 9/10) :
    Evaluate.run ext v n c mv mn fs =
      .ok (fsWrite fs (output (.Evaluate v n c mv mn))
        (.json [("acc", 9/10), ("baseline_acc", 4/5)])) := by
  have hlt : (4:ℚ)/5 < 9/10 := by norm_num
  simp [Evaluate.run, inputs, requires, hm, hb, ha, hacc, gt_iff_lt, hlt]

/-- C2 witness: the 0.90-vs-0.80 scenario at the default parameters. -/
theorem evaluate_pass_writes_witness :
    Evaluate.run (extW (9/10)) 1 "dataset" "standard" 1 "keras_model" fsW =
      .ok (fsWrite fsW
        (output (.Evaluate 1 "dataset" "standard" 1 "keras_model"))
        (.json [("acc", 9/10), ("baseline_acc", 4/5)])) :=
  evaluate_pass_writes (extW (9/10)) 1 "dataset" "standard" 1 "keras_model"
    fsW (.bytes []) [("acc", 4/5)] rfl rfl rfl rfl

/-- C3: with computed accuracy 0.70 against baseline 0.80 the Evaluate
work routine raises the gate exception carrying both compared values,
and nothing is written: the filesystem, in particular the Evaluate
target, is unchanged. -/
theorem evaluate_gate_raises {G : Type} (ext : Externals G) (v : Int)
    (n c : String) (mv : Int) (mn : String) (fs : FS) (model : Content)
    (fields : List (String × ℚ))
    (hm : fsRead fs (output (.TrainModel v n c mv mn)) = some model)
    (hb : fsRead fs (output (.BaselineValidation v n c)) =
      some (.json fields))
    (ha : lookupKey fields "acc" = some (4/5))
    (hacc : Evaluate.computed_acc ext v n c mv mn model = 7/10) :
    Evaluate.run ext v n c mv mn fs = .error (.gateFailure (7/10) (4/5)) ∧
    runState fs (Evaluate.run ext v n c mv mn fs) = fs ∧
    fsRead (runState fs (Evaluate.run ext v n c mv mn fs))
        (output (.Evaluate v n c mv mn)) =
      fsRead fs (output (.Evaluate v n c mv mn)) := by
  have hnlt : ¬ (4:ℚ)/5 < 7/10 := by norm_num
  have hrun : Evaluate.run ext v n c mv mn fs =
      .error (.gateFailure (7/10) (4/5)) := by
    simp [Evaluate.run, inputs, requires, hm, hb, ha, hacc, gt_iff_lt, hnlt]
  exact ⟨hrun, by rw [hrun]; rfl, by rw [hrun]; rfl⟩

/-- C3 witness: the 0.70-vs-0.80 scenario at the default parameters. -/
theorem evaluate_gate_raises_witness :
    Evaluate.run (extW (7/10)) 1 "dataset" "standard" 1 "keras_model" fsW =
      .error (.gateFailure (7/10) (4/5)) :=
  (evaluate_gate_raises (extW (7/10)) 1 "dataset" "standard" 1
    "keras_model" fsW (.bytes []) [("acc", 4/5)] rfl rfl rfl rfl).1

/-- C10: Evaluate reads the baseline by an unguarded `["acc"]` lookup on
the JSON object in the BaselineValidation target; absent that key the
routine fails with a KeyError, which is not the gate exception, while
the BaselineValidation writer does establish the key. -/
theorem evaluate_missing_acc_key {G : Type} (ext : Externals G) (v : Int)
    (n c : String) (mv : Int) (mn : String) (fs : FS) (model : Content)
    (fields : List (String × ℚ))
    (hm : fsRead fs (output (.TrainModel v n c mv mn)) = some model)
    (hb : fsRead fs (output (.BaselineValidation v n c)) =
      some (.json fields))
    (hnone : lookupKey fields "acc" = none) :
    Evaluate.run ext v n c mv mn fs = .error (.keyError "acc") ∧
    (∀ a b : ℚ, PipeErr.keyError "acc" ≠ .gateFailure a b) ∧
    (inputs (.Evaluate v n c mv mn)).getD 1 "" =
      output (.BaselineValidation v n c) ∧
    (lookupKey (BaselineValidation.result ext v n c) "acc").isSome = true := by
  refine ⟨?_, fun a b h => PipeErr.noConfusion h, rfl, rfl⟩
  simp [Evaluate.run, inputs, requires, hm, hb, hnone]

/-- C10 witness: a baseline JSON object with no `"acc"` key yields the
KeyError at the default parameters. -/
theorem evaluate_missing_acc_key_witness :
    Evaluate.run (extW (9/10)) 1 "dataset" "standard" 1 "keras_model"
        [(output (.TrainModel 1 "dataset" "standard" 1 "keras_model"),
          .bytes []),
         (output (.BaselineValidation 1 "dataset" "standard"), .json [])] =
      .error (.keyError "acc") :=
  (evaluate_missing_acc_key (extW (9/10)) 1 "dataset" "standard" 1
    "keras_model"
    [(output (.TrainModel 1 "dataset" "standard" 1 "keras_model"),
      .bytes []),
     (output (.BaselineValidation 1 "dataset" "standard"), .json [])]
    (.bytes []) [] rfl rfl rfl).1

/-- Reachability stays inside any dependency-closed node set. -/
theorem mem_of_transGen_closed {L : List TaskT}
    (hcl : ∀ x ∈ L, ∀ d ∈ requires x, d ∈ L) {d t : TaskT}
    (h : Relation.TransGen depends d t) (ht : t ∈ L) : d ∈ L := by
  induction h with
  | single h1 => exact hcl _ ht _ h1
  | tail _ h1 ih => exact ih (hcl _ ht _ h1)

/-- C4: with fixed parameter values, BaselineValidation, TrainModel and
Evaluate each declare the dependency `ExtractDataset(dataset_version,
dataset_name)` — literally the same node, hence the same TaskKey — and
in the full fresh run rooted at Export the extraction work routine
appears in the execution trace exactly once and the node ends
Complete. -/
theorem diamond_extract_once (v : Int) (n c : String) (mv : Int)
    (mn : String) :
    TaskT.ExtractDataset v n ∈ requires (.BaselineValidation v n c) ∧
    TaskT.ExtractDataset v n ∈ requires (.TrainModel v n c mv mn) ∧
    TaskT.ExtractDataset v n ∈ requires (.Evaluate v n c mv mn) ∧
    (scheduleFuel 7 (.Export v n c mv mn) ⟨[], []⟩).trace.count
        (.ExtractDataset v n) = 1 ∧
    TaskT.ExtractDataset v n ∈
      (scheduleFuel 7 (.Export v n c mv mn) ⟨[], []⟩).complete := by
  refine ⟨by simp [requires], by simp [requires], by simp [requires],
    ?_, ?_⟩
  · rw [scheduleFuel_export_eval]
    simp [List.count_cons]
  · rw [scheduleFuel_export_eval]
    simp

/-- C6: every declared dependency strictly decreases the rank, so the
dependency relation admits no cycle; moreover everything reachable from
an Export root lies inside the finite node list of the fresh run, whose
resolution terminates with the root Complete. -/
theorem export_graph_finite_acyclic (v : Int) (n c : String) (mv : Int)
    (mn : String) :
    (∀ t d : TaskT, d ∈ requires t → rank d < rank t) ∧
    (∀ t : TaskT, ¬ Relation.TransGen depends t t) ∧
    (∀ d : TaskT, Relation.TransGen depends d (.Export v n c mv mn) →
      d ∈ (scheduleFuel 7 (.Export v n c mv mn) ⟨[], []⟩).complete) ∧
    TaskT.Export v n c mv mn ∈
      (scheduleFuel 7 (.Export v n c mv mn) ⟨[], []⟩).complete := by
  refine ⟨fun t d h => requires_rank_lt h,
    fun t h => lt_irrefl _ (transGen_rank_lt h), ?_, ?_⟩
  · intro d h
    rw [scheduleFuel_export_eval]
    refine mem_of_transGen_closed ?_ h (by simp)
    intro x hx dd hdd
    fin_cases hx <;>
      simp only [requires, List.mem_cons, List.not_mem_nil,
        or_false] at hdd <;>
      (try casesm* _ ∨ _) <;> subst_vars <;> simp
  · rw [scheduleFuel_export_eval]
    simp

/-- C6 witness: the Evaluate node reached from the Export root in one
step ends Complete in the concrete run at the default parameters. -/
theorem export_graph_finite_acyclic_witness :
    TaskT.Evaluate 1 "dataset" "standard" 1 "keras_model" ∈
      (scheduleFuel 7 (.Export 1 "dataset" "standard" 1 "keras_model")
        ⟨[], []⟩).complete :=
  (export_graph_finite_acyclic 1 "dataset" "standard" 1
    "keras_model").2.2.1 _
    (Relation.TransGen.single (by simp [depends, requires]))

/-- Folding the format-string tail: appending "." and the zip literal
is appending ".zip". -/
theorem append_dot_zip (x : String) : x ++ "." ++ "zip" = x ++ ".zip" := by
  rw [String.append_assoc]
  rfl

/-- C7: the DownloadDataset argument vector is exactly
`["curl", "-L", "-o", p, u]` with `p = "/tmp/<name>_v<version>.zip"`
and `u` the dataset URL, and the destination argument coincides with
the task's own declared target path. -/
theorem download_args_spec (v : Int) (n : String) :
    DownloadDataset.program_args v n =
      ["curl", "-L", "-o", "/tmp/" ++ n ++ "_v" ++ toString v ++ ".zip",
       "http://plainpixels.work/resources/datasets/" ++ n ++ "_v" ++
         toString v ++ ".zip"] ∧
    (DownloadDataset.program_args v n).getD 3 "" =
      output (.DownloadDataset v n) := by
  refine ⟨?_, rfl⟩
  simp only [DownloadDataset.program_args, output, DownloadDataset.base_url,
    DownloadDataset.file_fomat]
  rw [append_dot_zip, append_dot_zip]
  rfl

/-- C8: each `output()` method is a pure function of the task's
parameters: invocations at tasks with equal TaskKeys return equal
paths whatever the filesystem state, and computing `output()` leaves
the filesystem untouched. -/
theorem output_pure_of_key (t1 t2 : TaskT) (fs1 fs2 : FS)
    (h : taskKey t1 = taskKey t2) :
    (outputM t1 fs1).1 = (outputM t2 fs2).1 ∧ (outputM t1 fs1).2 = fs1 := by
  cases taskKey_injective h
  exact ⟨rfl, rfl⟩

/-- C8 witness: two invocations of `Configure.output` under different
filesystem states agree and mutate nothing. -/
theorem output_pure_of_key_witness :
    (outputM (.Configure "standard") []).1 =
      (outputM (.Configure "standard")
        [(output (.Configure "standard"), .bytes [])]).1 ∧
    (outputM (.Configure "standard") []).2 = [] :=
  output_pure_of_key _ _ _ _ rfl

/-- C9: Export's second declared dependency is TrainModel, whose target
path `model/<model_version>/<model_name>.h5` is the path `Export.run`
loads the model from; the outcome of `Export.run` at its own target
depends only on the content at that path — in particular Evaluate's
target content is never read, Evaluate gating Export purely through
its position in `requires`. -/
theorem export_loads_second_dep {G : Type} (ext : Externals G) (v : Int)
    (n c : String) (mv : Int) (mn : String) :
    (requires (.Export v n c mv mn))[0]? = some (.Evaluate v n c mv mn) ∧
    (requires (.Export v n c mv mn))[1]? = some (.TrainModel v n c mv mn) ∧
    (inputs (.Export v n c mv mn)).getD 1 "" =
      "model/" ++ toString mv ++ "/" ++ mn ++ ".h5" ∧
    ∀ fs1 fs2 : FS,
      fsRead fs1 (output (.TrainModel v n c mv mn)) =
        fsRead fs2 (output (.TrainModel v n c mv mn)) →
      (Export.run ext v n c mv mn fs1).map
          (fun r => fsRead r (output (.Export v n c mv mn))) =
        (Export.run ext v n c mv mn fs2).map
          (fun r => fsRead r (output (.Export v n c mv mn))) := by
  refine ⟨rfl, rfl, rfl, ?_⟩
  intro fs1 fs2 h
  have h1 : (inputs (.Export v n c mv mn)).getD 1 "" =
      output (.TrainModel v n c mv mn) := rfl
  simp only [Export.run, h1, h]
  cases fsRead fs2 (output (.TrainModel v n c mv mn)) with
  | none => rfl
  | some m => simp [Except.map, fsRead_fsWrite_same]

/-- C9 witness: adding an Evaluate result file to the filesystem does
not change what Export produces at its target. -/
theorem export_loads_second_dep_witness :
    (Export.run (extW (9/10)) 1 "dataset" "standard" 1 "keras_model"
        [(output (.TrainModel 1 "dataset" "standard" 1 "keras_model"),
          .bytes [1])]).map
        (fun r =>
          fsRead r (output (.Export 1 "dataset" "standard" 1
            "keras_model"))) =
      (Export.run (extW (9/10)) 1 "dataset" "standard" 1 "keras_model"
        [(output (.Evaluate 1 "dataset" "standard" 1 "keras_model"),
          .json []),
         (output (.TrainModel 1 "dataset" "standard" 1 "keras_model"),
          .bytes [1])]).map
        (fun r =>
          fsRead r (output (.Export 1 "dataset" "standard" 1
            "keras_model"))) :=
  (export_loads_second_dep (extW (9/10)) 1 "dataset" "standard" 1
    "keras_model").2.2.2 _ _ rfl

/-- The first character of each class's target path; the seven classes
use seven distinct leading characters. -/
def kindChar : TaskT → Char
  | .DownloadDataset .. => '/'
  | .ExtractDataset .. => 'd'
  | .Configure .. => 'c'
  | .BaselineValidation .. => 'b'
  | .TrainModel .. => 'm'
  | .Evaluate .. => 'e'
  | .Export .. => 's'

/-- Every target path starts with its class's leading character. -/
theorem output_head (t : TaskT) :
    (output t).data.head? = some (kindChar t) := by
  cases t <;> rfl

/-- The leading character determines the task class. -/
theorem taskType_eq_of_kindChar {t1 t2 : TaskT}
    (h : kindChar t1 = kindChar t2) : taskType t1 = taskType t2 := by
  cases t1 <;> cases t2 <;> simp_all [kindChar, taskType]

/-- C5 counterexample: two ExtractDataset tasks with distinct TaskKeys
(same dataset_version, different dataset_name) resolve to the same
Target path. -/
theorem distinct_targets_cex :
    taskKey (.ExtractDataset 1 "a") ≠ taskKey (.ExtractDataset 1 "b") ∧
    output (.ExtractDataset 1 "a") = output (.ExtractDataset 1 "b") :=
  ⟨by decide, rfl⟩

/-- C5 (amended): tasks of distinct classes always resolve to distinct
Target paths, but within a class the path reflects only the parameters
that occur in its format string: ExtractDataset's path ignores
dataset_name, BaselineValidation's path is constant, and TrainModel's
path ignores the dataset/config parameters (likewise Evaluate and
Export), while string parameters that do occur in the path (the
DownloadDataset dataset_name, the Configure config_name, the TrainModel
model_name) yield distinct Targets when they differ. -/
theorem distinct_targets_amended :
    (∀ t1 t2 : TaskT, taskType t1 ≠ taskType t2 →
      output t1 ≠ output t2) ∧
    (∀ (v : Int) (n n2 : String),
      output (.ExtractDataset v n) = output (.ExtractDataset v n2)) ∧
    (∀ (v v2 : Int) (n n2 c c2 : String),
      output (.BaselineValidation v n c) =
        output (.BaselineValidation v2 n2 c2)) ∧
    (∀ (v v2 : Int) (n n2 c c2 : String) (mv : Int) (mn : String),
      output (.TrainModel v n c mv mn) =
        output (.TrainModel v2 n2 c2 mv mn)) ∧
    (∀ (v v2 : Int) (n n2 c c2 : String) (mv : Int) (mn : String),
      output (.Evaluate v n c mv mn) =
        output (.Evaluate v2 n2 c2 mv mn)) ∧
    (∀ (v v2 : Int) (n n2 c c2 : String) (mv : Int) (mn : String),
      output (.Export v n c mv mn) =
        output (.Export v2 n2 c2 mv mn)) ∧
    (∀ (v : Int) (n n2 : String), n ≠ n2 →
      output (.DownloadDataset v n) ≠ output (.DownloadDataset v n2)) ∧
    (∀ c c2 : String, c ≠ c2 →
      output (.Configure c) ≠ output (.Configure c2)) ∧
    (∀ (v : Int) (n c : String) (mv : Int) (mn mn2 : String), mn ≠ mn2 →
      output (.TrainModel v n c mv mn) ≠
        output (.TrainModel v n c mv mn2)) := by
  refine ⟨?_, fun v n n2 => rfl, fun v v2 n n2 c c2 => rfl,
    fun v v2 n n2 c c2 mv mn => rfl, fun v v2 n n2 c c2 mv mn => rfl,
    fun v v2 n n2 c c2 mv mn => rfl, ?_, ?_, ?_⟩
  · intro t1 t2 hty heq
    apply hty
    have h1 := output_head t1
    rw [heq, output_head t2] at h1
    exact taskType_eq_of_kindChar (Option.some_injective _ h1.symm)
  · intro v n n2 hne heq
    apply hne
    apply String.ext
    have hd := congrArg String.data heq
    simp only [output, DownloadDataset.file_fomat, String.data_append,
      List.append_assoc] at hd
    exact List.append_cancel_right (List.append_cancel_left hd)
  · intro c c2 hne heq
    apply hne
    apply String.ext
    have hd := congrArg String.data heq
    simp only [output, String.data_append, List.append_assoc] at hd
    exact List.append_cancel_right (List.append_cancel_left hd)
  · intro v n c mv mn mn2 hne heq
    apply hne
    apply String.ext
    have hd := congrArg String.data heq
    simp only [output, String.data_append, List.append_assoc] at hd
    exact List.append_cancel_right
      (List.append_cancel_left (List.append_cancel_left
        (List.append_cancel_left hd)))

/-- C5 witness: DownloadDataset targets for two different dataset names
are distinct. -/
theorem distinct_targets_amended_witness :
    output (.DownloadDataset 1 "dataset") ≠
      output (.DownloadDataset 1 "other") :=
  distinct_targets_amended.2.2.2.2.2.2.1 1 "dataset" "other" (by decide)

end LuigiPipeline
